import Mathlib

/-!
Verification of the storm-track extraction logic of the Tropycal_Tutorials
repository, embedded from `IBTrACS_Tutorial/notebooks/Using IBTrACS.ipynb`.

The notebook extracts one storm's track from the IBTrACS dataset in three
formats:

* tabular (CSV / pandas): `ibtracs_phoebe = ibtracs_data[ibtracs_data['NAME'] == 'PHOEBE']`
* geometry (shapefile / geopandas): `phoebe_gdf = ibtracs_gdf[ibtracs_gdf['NAME'] == 'PHOEBE']`
* array (NetCDF): decode `sid` char arrays with `''.join(sid.astype(str)).strip()`,
  check `if target_sid in storm_ids` (calling `exit()` otherwise), select
  `storm_indices = np.where(np.array(storm_ids) == target_sid)[0]`, flatten the
  co-indexed arrays at those indices, zip them and keep the points passing
  `not np.isnan(lat) and not np.isnan(lon) and wind != -9999 and pres != -9999`,
  and finally convert times with `datetime(1858, 11, 17) + timedelta(days=t)`.

Floating-point cell values are modelled as either `NaN` or an exact number;
the notebook only ever tests them with `np.isnan` and with `!=`/`==` against
exact constants, so no rounding behaviour is involved.
-/

/-- A floating-point cell value as the notebook observes it: either `NaN`
(`np.isnan` true) or an ordinary number. -/
inductive FVal where
  | nan : FVal
  | val : ℚ → FVal
deriving DecidableEq, Repr

/-- Embeds `np.isnan(x)`. -/
def isnan : FVal → Bool
  | FVal.nan => true
  | FVal.val _ => false

/-- Embeds the Python comparison `x != c` for a float `x` and an exact constant
`c`; note `NaN != c` evaluates to `True` in IEEE/Python semantics. -/
def fneq (x : FVal) (c : ℚ) : Bool :=
  match x with
  | FVal.nan => true
  | FVal.val q => decide (q ≠ c)

/-- IEEE `<=` on cell values: false whenever either side is `NaN`. -/
def fle : FVal → FVal → Bool
  | FVal.val a, FVal.val b => decide (a ≤ b)
  | _, _ => false

/-- One row of the CSV table (`ibtracs_data`): the named fields the notebook
touches, plus the wind/pressure fields carried by every IBTrACS row. -/
structure TabRow where
  name : String
  sid : String
  season : Int
  lat : FVal
  lon : FVal
  wind : FVal
  pres : FVal
deriving DecidableEq, Repr

/-- Tabular extraction, from the cell
`ibtracs_phoebe = ibtracs_data[ibtracs_data['NAME'] == 'PHOEBE']`,
generalized over the target name: a pandas boolean-mask row filter.
No further validation, conversion or sorting is applied to the result. -/
def ibtracs_storm (rows : List TabRow) (target : String) : List TabRow :=
  rows.filter (fun r => decide (r.name = target))

/-- One row of the shapefile GeoDataFrame (`ibtracs_gdf`): name, coordinates
and the per-row geometry value (opaque handle). -/
structure GeoRow where
  name : String
  lat : FVal
  lon : FVal
  geometry : Int
deriving DecidableEq, Repr

/-- Geometry extraction, from the cell
`phoebe_gdf = ibtracs_gdf[ibtracs_gdf['NAME'] == 'PHOEBE']`, generalized over
the target name. As in the tabular case it is a bare row filter. -/
def storm_gdf (rows : List GeoRow) (target : String) : List GeoRow :=
  rows.filter (fun r => decide (r.name = target))

/-- The NetCDF variables the notebook reads: `sid` is one fixed-width character
array per storm; the numeric variables are two-dimensional (storm × time),
co-indexed with `sid` on the storm axis. -/
structure NcData where
  sid : List (List Char)
  lat : List (List FVal)
  lon : List (List FVal)
  wmo_wind : List (List FVal)
  wmo_pres : List (List FVal)
  time : List (List FVal)
deriving DecidableEq, Repr

/-- Embeds `''.join(sid.astype(str)).strip()`: the join is the identity on the
character sequence, and `.strip()` removes leading and trailing whitespace. -/
def strip (cs : List Char) : List Char :=
  ((cs.dropWhile Char.isWhitespace).reverse.dropWhile Char.isWhitespace).reverse

/-- Embeds `storm_ids = [''.join(sid.astype(str)).strip() for sid in storm_ids]`. -/
def storm_ids (d : NcData) : List (List Char) :=
  d.sid.map strip

/-- Embeds `storm_indices = np.where(np.array(storm_ids) == target_sid)[0]`:
the positions whose decoded identifier equals the target, in ascending
(original) order. -/
def storm_indices (d : NcData) (target : List Char) : List Nat :=
  (List.range (storm_ids d).length).filter (fun i => decide ((storm_ids d).getD i [] = target))

/-- Embeds `variable[storm_indices].flatten()`: the selected storms' rows,
concatenated in index order. -/
def select_flat (rows : List (List FVal)) (idx : List Nat) : List FVal :=
  (idx.map (fun i => rows.getD i [])).flatten

/-- Embeds `filtered_lats = latitudes[storm_indices].flatten()`. -/
def filtered_lats (d : NcData) (target : List Char) : List FVal :=
  select_flat d.lat (storm_indices d target)

/-- Embeds `filtered_lons = longitudes[storm_indices].flatten()`. -/
def filtered_lons (d : NcData) (target : List Char) : List FVal :=
  select_flat d.lon (storm_indices d target)

/-- Embeds `filtered_winds = wmo_wind[storm_indices].flatten()`. -/
def filtered_winds (d : NcData) (target : List Char) : List FVal :=
  select_flat d.wmo_wind (storm_indices d target)

/-- Embeds `filtered_pressures = wmo_pres[storm_indices].flatten()`. -/
def filtered_pressures (d : NcData) (target : List Char) : List FVal :=
  select_flat d.wmo_pres (storm_indices d target)

/-- Embeds `filtered_times = times[storm_indices].flatten()`. -/
def filtered_times (d : NcData) (target : List Char) : List FVal :=
  select_flat d.time (storm_indices d target)

/-- One candidate track point: the tuple `(lat, lon, wind, pres, t)` built by
`zip(filtered_lats, filtered_lons, filtered_winds, filtered_pressures, filtered_times)`. -/
structure Observation where
  lat : FVal
  lon : FVal
  wind : FVal
  pres : FVal
  time : FVal
deriving DecidableEq, Repr

/-- Python `zip` over the five parallel sequences (truncates at the shortest,
exactly as `zip` does). -/
def zip5 : List FVal → List FVal → List FVal → List FVal → List FVal → List Observation
  | a :: as, b :: bs, c :: cs, d :: ds, e :: es => ⟨a, b, c, d, e⟩ :: zip5 as bs cs ds es
  | _, _, _, _, _ => []

/-- The candidate points of the target storm, in source order:
`zip(filtered_lats, filtered_lons, filtered_winds, filtered_pressures, filtered_times)`. -/
def candidates (d : NcData) (target : List Char) : List Observation :=
  zip5 (filtered_lats d target) (filtered_lons d target) (filtered_winds d target)
    (filtered_pressures d target) (filtered_times d target)

/-- The guard of the `valid_data` list comprehension:
`not np.isnan(lat) and not np.isnan(lon) and wind != -9999 and pres != -9999`. -/
def valid_point (o : Observation) : Bool :=
  !(isnan o.lat) && !(isnan o.lon) && fneq o.wind (-9999) && fneq o.pres (-9999)

/-- Embeds `valid_data = [(lat, lon, wind, pres, t) for ... in zip(...) if ...]`. -/
def valid_data (d : NcData) (target : List Char) : List Observation :=
  (candidates d target).filter valid_point

/-- Outcome of the NetCDF extraction narration. `processExit` records the
`exit()` call the notebook makes when the target identifier is absent: the
hosting process is terminated and nothing is returned to any caller. -/
inductive ExtractResult where
  | processExit : ExtractResult
  | track : List Observation → ExtractResult
deriving DecidableEq, Repr

/-- The NetCDF extraction end to end: the membership check
`if target_sid in storm_ids: ... else: ... exit()` followed by the
index selection, flattening, zipping and `valid_data` filtering. -/
def nc_extraction (d : NcData) (target : List Char) : ExtractResult :=
  if target ∈ storm_ids d then ExtractResult.track (valid_data d target)
  else ExtractResult.processExit

/-- A calendar date, as produced by Python `datetime` addition (proleptic
Gregorian calendar). -/
structure Date where
  year : Int
  month : Int
  day : Int
deriving DecidableEq, Repr

/-- Proleptic-Gregorian day number (days since 1970-01-01) of a civil date;
this is CPython's `datetime.toordinal` up to a constant shift. All divisions
are floor divisions on non-negative intermediate values. -/
def days_from_civil (y m d : Int) : Int :=
  let ya := if m ≤ 2 then y - 1 else y
  let era := ya.ediv 400
  let yoe := ya - era * 400
  let mp := (m + 9).emod 12
  let doy := (153 * mp + 2).ediv 5 + d - 1
  let doe := yoe * 365 + yoe.ediv 4 - yoe.ediv 100 + doy
  era * 146097 + doe - 719468

/-- Civil date of a proleptic-Gregorian day number (days since 1970-01-01);
this is CPython's `datetime.fromordinal` up to the same constant shift. -/
def civil_from_days (z : Int) : Date :=
  let zs := z + 719468
  let era := zs.ediv 146097
  let doe := zs - era * 146097
  let yoe := (doe - doe.ediv 1460 + doe.ediv 36524 - doe.ediv 146096).ediv 365
  let y0 := yoe + era * 400
  let doy := doe - (365 * yoe + yoe.ediv 4 - yoe.ediv 100)
  let mp := (5 * doy + 2).ediv 153
  let dd := doy - (153 * mp + 2).ediv 5 + 1
  let mm := mp + (if mp < 10 then 3 else -9)
  ⟨if mm ≤ 2 then y0 + 1 else y0, mm, dd⟩

/-- Embeds `start_date = datetime(1858, 11, 17)  # Julian day zero reference`. -/
def start_date : Date := ⟨1858, 11, 17⟩

/-- Embeds `filtered_dates = [start_date + timedelta(days=t) for t in filtered_times]`
for a whole-day offset `t`: Python datetime addition is ordinal arithmetic on
the proleptic Gregorian calendar, so the date component of
`start_date + timedelta(days=t)` is the date at ordinal `toordinal(start_date) + t`. -/
def filtered_date (t : Int) : Date :=
  civil_from_days (days_from_civil start_date.year start_date.month start_date.day + t)

/-! ### Helper lemmas -/

lemma length_dropWhile_le (p : Char → Bool) (l : List Char) :
    (l.dropWhile p).length ≤ l.length := by
  induction l with
  | nil => simp
  | cons a r ih =>
    by_cases h : p a
    · simp only [List.dropWhile_cons, h, if_true]
      exact Nat.le_trans ih (Nat.le_succ _)
    · simp [List.dropWhile_cons, h]

lemma dropWhile_idem (p : Char → Bool) (l : List Char) :
    List.dropWhile p (List.dropWhile p l) = List.dropWhile p l := by
  induction l with
  | nil => rfl
  | cons a r ih =>
    by_cases h : p a
    · simp only [List.dropWhile_cons, h, if_true]
      exact ih
    · simp [List.dropWhile_cons, h]

lemma dropWhile_append_eq_self (p : Char → Bool) (x s : List Char)
    (h : List.dropWhile p (x ++ s) = x ++ s) : List.dropWhile p x = x := by
  cases x with
  | nil => rfl
  | cons a t =>
    have ha : p a = false := by
      by_contra hne
      have hpa : p a = true := by
        cases hq : p a
        · exact absurd hq hne
        · rfl
      rw [List.cons_append, List.dropWhile_cons, hpa, if_pos rfl] at h
      have hlen := length_dropWhile_le p (t ++ s)
      rw [h] at hlen
      simp at hlen
    simp [List.dropWhile_cons, ha]

lemma exists_dropWhile_eq_append (p : Char → Bool) (l : List Char) :
    ∃ u, l = u ++ List.dropWhile p l := by
  induction l with
  | nil => exact ⟨[], rfl⟩
  | cons a r ih =>
    by_cases h : p a
    · obtain ⟨u, hu⟩ := ih
      refine ⟨a :: u, ?_⟩
      simp only [List.dropWhile_cons, h, if_true, List.cons_append]
      exact congrArg (a :: ·) hu
    · exact ⟨[], by simp [List.dropWhile_cons, h]⟩

/-- Stripping is idempotent: a stripped identifier has no leading or trailing
whitespace left to remove. -/
lemma strip_strip (cs : List Char) : strip (strip cs) = strip cs := by
  unfold strip
  have hArev : List.dropWhile Char.isWhitespace (List.dropWhile Char.isWhitespace cs) =
      List.dropWhile Char.isWhitespace cs := dropWhile_idem Char.isWhitespace cs
  obtain ⟨u, hu⟩ :=
    exists_dropWhile_eq_append Char.isWhitespace (List.dropWhile Char.isWhitespace cs).reverse
  have hAeq : List.dropWhile Char.isWhitespace cs =
      (List.dropWhile Char.isWhitespace
        (List.dropWhile Char.isWhitespace cs).reverse).reverse ++ u.reverse := by
    have h2 := congrArg List.reverse hu
    rw [List.reverse_reverse, List.reverse_append] at h2
    exact h2
  have hBrev : List.dropWhile Char.isWhitespace
      (List.dropWhile Char.isWhitespace
        (List.dropWhile Char.isWhitespace cs).reverse).reverse =
      (List.dropWhile Char.isWhitespace
        (List.dropWhile Char.isWhitespace cs).reverse).reverse := by
    apply dropWhile_append_eq_self Char.isWhitespace _ u.reverse
    rw [← hAeq]
    exact hArev
  rw [hBrev, List.reverse_reverse,
    dropWhile_idem Char.isWhitespace (List.dropWhile Char.isWhitespace cs).reverse]

/-- Every decoded identifier in `storm_ids` is a fixed point of `strip`. -/
lemma storm_ids_stripped {d : NcData} {s : List Char} (h : s ∈ storm_ids d) :
    strip s = s := by
  unfold storm_ids at h
  obtain ⟨a, _, rfl⟩ := List.mem_map.1 h
  exact strip_strip a

lemma isnan_false_iff (x : FVal) : isnan x = false ↔ x ≠ FVal.nan := by
  cases x <;> simp [isnan]

lemma fneq_true_iff (x : FVal) (c : ℚ) : fneq x c = true ↔ x ≠ FVal.val c := by
  cases x <;> simp [fneq]

/-- Unfolding of the `valid_data` guard into its four independent conditions. -/
lemma valid_point_iff (o : Observation) :
    valid_point o = true ↔
      o.lat ≠ FVal.nan ∧ o.lon ≠ FVal.nan ∧
        o.wind ≠ FVal.val (-9999) ∧ o.pres ≠ FVal.val (-9999) := by
  simp [valid_point, Bool.and_eq_true, Bool.not_eq_true', isnan_false_iff, fneq_true_iff,
    and_assoc]

/-- If the NetCDF extraction produced a track, it is exactly `valid_data`. -/
lemma nc_track_eq {d : NcData} {t : List Char} {tr : List Observation}
    (h : nc_extraction d t = ExtractResult.track tr) : tr = valid_data d t := by
  unfold nc_extraction at h
  by_cases hc : t ∈ storm_ids d
  · rw [if_pos hc] at h
    injection h with h2
    exact h2.symm
  · rw [if_neg hc] at h
    exact absurd h (by simp)

/-! ### Concrete instances used by the claim theorems -/

/-- A tabular source holding one PHOEBE row whose latitude is `NaN`. -/
def c1_rows : List TabRow :=
  [⟨"PHOEBE", "2004076S13129", 2004, FVal.nan, FVal.val 80, FVal.val 35, FVal.val 990⟩]

/-- A NetCDF source with a single storm and a single fully valid point. -/
def c1_nc : NcData :=
  ⟨["AL01 ".toList], [[FVal.val 10]], [[FVal.val 20]], [[FVal.val 30]],
    [[FVal.val 1000]], [[FVal.val 0]]⟩

/-- A tabular source that does not contain the storm name PHOEBE. -/
def c2_rows : List TabRow :=
  [⟨"GONU", "2007225N18309", 2007, FVal.val 15, FVal.val 60, FVal.val 120, FVal.val 920⟩]

/-- A geometry source that does not contain the storm name PHOEBE. -/
def c2_geo : List GeoRow :=
  [⟨"GONU", FVal.val 15, FVal.val 60, 7⟩]

/-- A NetCDF source whose only decoded identifier is `AA`. -/
def c2_nc : NcData :=
  ⟨["AA ".toList], [[FVal.val 1]], [[FVal.val 2]], [[FVal.val 3]], [[FVal.val 4]],
    [[FVal.val 5]]⟩

/-- A NetCDF source whose matching storm has two valid points with decreasing
time offsets (5 then 3). -/
def c3_nc : NcData :=
  ⟨["S1 ".toList], [[FVal.val 10, FVal.val 11]], [[FVal.val 20, FVal.val 21]],
    [[FVal.val 30, FVal.val 31]], [[FVal.val 900, FVal.val 901]],
    [[FVal.val 5, FVal.val 3]]⟩

/-- Like `c3_nc` but with increasing time offsets (3 then 5). -/
def c3_nc_sorted : NcData :=
  ⟨["S2 ".toList], [[FVal.val 10, FVal.val 11]], [[FVal.val 20, FVal.val 21]],
    [[FVal.val 30, FVal.val 31]], [[FVal.val 900, FVal.val 901]],
    [[FVal.val 3, FVal.val 5]]⟩

/-- A NetCDF source whose only storm is `1999001N10200`. -/
def c4_nc : NcData :=
  ⟨["1999001N10200".toList], [[FVal.val 1]], [[FVal.val 2]], [[FVal.val 3]],
    [[FVal.val 4]], [[FVal.val 5]]⟩

/-- A NetCDF source whose matching storm has one candidate point, invalid
because its latitude is `NaN`. -/
def c5_nc : NcData :=
  ⟨["S5 ".toList], [[FVal.nan]], [[FVal.val 2]], [[FVal.val 3]], [[FVal.val 4]],
    [[FVal.val 5]]⟩

/-- A NetCDF source whose matching storm has one valid and one invalid point. -/
def c7_nc : NcData :=
  ⟨["S7 ".toList], [[FVal.val 1, FVal.nan]], [[FVal.val 2, FVal.val 2]],
    [[FVal.val 3, FVal.val 3]], [[FVal.val 4, FVal.val 4]],
    [[FVal.val 0, FVal.val 1]]⟩

/-- The sid universe of the concrete scenario of C8: two storms sharing the
identifier `2012166N09269` followed by `1999001N10200`, each with fixed-width
padding. -/
def c8_nc : NcData :=
  ⟨["2012166N09269 ".toList, "2012166N09269 ".toList, "1999001N10200 ".toList],
    [[FVal.val 1], [FVal.val 2], [FVal.val 3]],
    [[FVal.val 1], [FVal.val 2], [FVal.val 3]],
    [[FVal.val 1], [FVal.val 2], [FVal.val 3]],
    [[FVal.val 1], [FVal.val 2], [FVal.val 3]],
    [[FVal.val 1], [FVal.val 2], [FVal.val 3]]⟩

/-- Small inputs for the determinism witness. -/
def c9_rows : List TabRow :=
  [⟨"PHOEBE", "2004076S13129", 2004, FVal.val 1, FVal.val 2, FVal.val 3, FVal.val 4⟩]

/-- Small geometry input for the determinism witness. -/
def c9_geo : List GeoRow := [⟨"PHOEBE", FVal.val 1, FVal.val 2, 3⟩]

/-- Small NetCDF input for the determinism witness. -/
def c9_nc : NcData := ⟨["P ".toList], [[FVal.val 1]], [[FVal.val 2]], [[FVal.val 3]],
  [[FVal.val 4]], [[FVal.val 5]]⟩

/-- A NetCDF source whose only identifier decodes (after stripping) to `AL01`. -/
def c10_nc : NcData :=
  ⟨["AL01 ".toList], [[FVal.val 1]], [[FVal.val 2]], [[FVal.val 3]], [[FVal.val 4]],
    [[FVal.val 5]]⟩

/-! ### Claim theorems -/

/-- C1 (counterexample): the claim fails for the tabular variant. On a tabular
source holding a PHOEBE row with `NaN` latitude, the extraction
`ibtracs_data[ibtracs_data['NAME'] == 'PHOEBE']` returns that row unchanged, so
the returned Track contains an Observation with `NaN` latitude. -/
theorem c1_counterexample :
    (ibtracs_storm c1_rows "PHOEBE").any (fun o => isnan o.lat) = true := by
  decide

/-- C1 (amended): only the array (NetCDF) variant filters invalid points: every
Observation in a Track returned by the NetCDF extraction has a non-NaN latitude,
a non-NaN longitude, a wind different from `-9999` and a pressure different from
`-9999`; the tabular and geometry variants return matching rows unfiltered. -/
theorem c1_amended (d : NcData) (t : List Char) (tr : List Observation)
    (h : nc_extraction d t = ExtractResult.track tr) :
    ∀ o ∈ tr, o.lat ≠ FVal.nan ∧ o.lon ≠ FVal.nan ∧
      o.wind ≠ FVal.val (-9999) ∧ o.pres ≠ FVal.val (-9999) := by
  intro o ho
  rw [nc_track_eq h] at ho
  unfold valid_data at ho
  exact (valid_point_iff o).1 (List.mem_filter.1 ho).2

/-- C1 (witness): the amended invariant evaluated on a concrete NetCDF source
with one valid point. -/
theorem c1_amended_witness :
    (⟨FVal.val 10, FVal.val 20, FVal.val 30, FVal.val 1000, FVal.val 0⟩ :
        Observation).lat ≠ FVal.nan ∧
      (⟨FVal.val 10, FVal.val 20, FVal.val 30, FVal.val 1000, FVal.val 0⟩ :
        Observation).lon ≠ FVal.nan ∧
      (⟨FVal.val 10, FVal.val 20, FVal.val 30, FVal.val 1000, FVal.val 0⟩ :
        Observation).wind ≠ FVal.val (-9999) ∧
      (⟨FVal.val 10, FVal.val 20, FVal.val 30, FVal.val 1000, FVal.val 0⟩ :
        Observation).pres ≠ FVal.val (-9999) :=
  c1_amended c1_nc ("AL01".toList)
    [⟨FVal.val 10, FVal.val 20, FVal.val 30, FVal.val 1000, FVal.val 0⟩]
    (by decide)
    ⟨FVal.val 10, FVal.val 20, FVal.val 30, FVal.val 1000, FVal.val 0⟩
    (by decide)

/-- C2 (counterexample): the claim fails for the tabular variant. With PHOEBE
absent from the source's name universe, the extraction delivers the empty list
(an empty Track) to its caller — there is no typed `StormNotFound` value in the
code at all. -/
theorem c2_counterexample :
    "PHOEBE" ∉ c2_rows.map TabRow.name ∧ ibtracs_storm c2_rows "PHOEBE" = [] := by
  decide

/-- C2 (amended): when the target identifier is absent, the tabular and
geometry variants deliver an empty Track (no typed failure exists in the code),
and the array (NetCDF) variant does not return to its caller at all — it runs
`exit()`, terminating the hosting process. No variant returns `StormNotFound`. -/
theorem c2_amended :
    (∀ (rows : List TabRow) (t : String),
        t ∉ rows.map TabRow.name → ibtracs_storm rows t = []) ∧
    (∀ (rows : List GeoRow) (t : String),
        t ∉ rows.map GeoRow.name → storm_gdf rows t = []) ∧
    (∀ (d : NcData) (t : List Char),
        t ∉ storm_ids d → nc_extraction d t = ExtractResult.processExit) := by
  refine ⟨?_, ?_, ?_⟩
  · intro rows t ht
    unfold ibtracs_storm
    rw [List.filter_eq_nil_iff]
    intro r hr hdec
    exact ht (List.mem_map.2 ⟨r, hr, of_decide_eq_true hdec⟩)
  · intro rows t ht
    unfold storm_gdf
    rw [List.filter_eq_nil_iff]
    intro r hr hdec
    exact ht (List.mem_map.2 ⟨r, hr, of_decide_eq_true hdec⟩)
  · intro d t ht
    unfold nc_extraction
    rw [if_neg ht]

/-- C2 (witness): the amended behaviour evaluated on concrete absent targets
for all three variants. -/
theorem c2_amended_witness :
    ibtracs_storm c2_rows "PHOEBE" = [] ∧ storm_gdf c2_geo "PHOEBE" = [] ∧
      nc_extraction c2_nc ("BB".toList) = ExtractResult.processExit :=
  ⟨c2_amended.1 c2_rows "PHOEBE" (by decide),
    c2_amended.2.1 c2_geo "PHOEBE" (by decide),
    c2_amended.2.2 c2_nc ("BB".toList) (by decide)⟩

/-- C3 (counterexample): no variant sorts by timestamp. On a NetCDF source
whose matching storm carries time offsets `5` then `3` (both points valid), the
returned Track keeps the source order, so the adjacent pair violates
`timestamp[i] <= timestamp[i+1]`. -/
theorem c3_counterexample :
    nc_extraction c3_nc ("S1".toList) =
      ExtractResult.track
        [⟨FVal.val 10, FVal.val 20, FVal.val 30, FVal.val 900, FVal.val 5⟩,
          ⟨FVal.val 11, FVal.val 21, FVal.val 31, FVal.val 901, FVal.val 3⟩] ∧
      fle (FVal.val 5) (FVal.val 3) = false := by
  decide

/-- C3 (amended): the extraction performs no sort; it preserves the source's
positional order (the Track is a subsequence of the candidate sequence), and
the Track's timestamps are ascending whenever the matching candidates'
timestamps already are. -/
theorem c3_amended (d : NcData) (t : List Char) (tr : List Observation)
    (h : nc_extraction d t = ExtractResult.track tr)
    (hs : (candidates d t).Pairwise (fun a b => fle a.time b.time = true)) :
    List.Sublist tr (candidates d t) ∧
      tr.Chain' (fun a b => fle a.time b.time = true) := by
  have htr : tr = valid_data d t := nc_track_eq h
  have hsub : List.Sublist tr (candidates d t) := by
    rw [htr]
    exact List.filter_sublist _
  exact ⟨hsub, (hs.sublist hsub).chain'⟩

/-- C3 (witness): the amended statement evaluated on a concrete NetCDF source
whose candidate timestamps are ascending. -/
theorem c3_amended_witness :
    List.Sublist (valid_data c3_nc_sorted ("S2".toList))
        (candidates c3_nc_sorted ("S2".toList)) ∧
      (valid_data c3_nc_sorted ("S2".toList)).Chain'
        (fun a b => fle a.time b.time = true) :=
  c3_amended c3_nc_sorted ("S2".toList) (valid_data c3_nc_sorted ("S2".toList))
    (by decide) (by decide)

/-- C4 (code bug): when the target identifier is absent, the NetCDF narration
executes `exit()` — the hosting process is terminated and no typed result
reaches any caller, contrary to the claim (and to the propagation policy the
spec states as intent). Evaluated at the concrete failing input. -/
theorem c4_process_exit :
    nc_extraction c4_nc ("2012166N09269".toList) = ExtractResult.processExit := by
  decide

/-- C5: for the array variant — the only variant whose code has missing-value
filtering rules — if the target identifier is present in the decoded universe
but every matching candidate fails the validity guard, the extraction returns
the empty Track as a successful result, an outcome distinct from the
process-terminating not-found branch. -/
theorem c5_empty_track (d : NcData) (t : List Char)
    (hmem : t ∈ storm_ids d)
    (hall : ∀ o ∈ candidates d t, valid_point o = false) :
    nc_extraction d t = ExtractResult.track [] ∧
      (ExtractResult.track [] : ExtractResult) ≠ ExtractResult.processExit := by
  have hv : valid_data d t = [] := by
    unfold valid_data
    rw [List.filter_eq_nil_iff]
    intro o ho
    simp [hall o ho]
  refine ⟨?_, by simp⟩
  unfold nc_extraction
  rw [if_pos hmem, hv]

/-- C5 (witness): evaluated on a concrete source whose only matching candidate
has `NaN` latitude. -/
theorem c5_empty_track_witness :
    nc_extraction c5_nc ("S5".toList) = ExtractResult.track [] ∧
      (ExtractResult.track [] : ExtractResult) ≠ ExtractResult.processExit :=
  c5_empty_track c5_nc ("S5".toList) (by decide) (by decide)

/-- C6: the epoch conversion `start_date + timedelta(days=t)` with
`start_date = datetime(1858, 11, 17)` decodes the day offset `0` to 1858-11-17
(`start_date` itself) and the offset `1` to 1858-11-18, under proleptic
Gregorian calendar arithmetic. -/
theorem c6_epoch_conversion :
    filtered_date 0 = start_date ∧ filtered_date 1 = ⟨1858, 11, 18⟩ := by
  decide

/-- C7: for the array variant the returned Track is a subsequence of the
matching candidate Observations (each kept verbatim), membership in the Track
is exactly passing the four-way validity guard (a candidate failing any one is
dropped entirely), and every selected position's decoded identifier equals the
target. -/
theorem c7_subsequence (d : NcData) (t : List Char) (tr : List Observation)
    (h : nc_extraction d t = ExtractResult.track tr) :
    List.Sublist tr (candidates d t) ∧
      (∀ o ∈ candidates d t, (o ∈ tr ↔ valid_point o = true)) ∧
      (∀ i ∈ storm_indices d t, (storm_ids d).getD i [] = t) := by
  have htr : tr = valid_data d t := nc_track_eq h
  refine ⟨?_, ?_, ?_⟩
  · rw [htr]
    exact List.filter_sublist _
  · intro o ho
    constructor
    · intro hot
      rw [htr] at hot
      exact (List.mem_filter.1 hot).2
    · intro hvp
      rw [htr]
      exact List.mem_filter.2 ⟨ho, hvp⟩
  · intro i hi
    unfold storm_indices at hi
    exact of_decide_eq_true (List.mem_filter.1 hi).2

/-- C7 (witness): evaluated on a concrete source with one valid and one invalid
candidate. -/
theorem c7_subsequence_witness :
    List.Sublist (valid_data c7_nc ("S7".toList)) (candidates c7_nc ("S7".toList)) ∧
      (storm_ids c7_nc).getD 0 [] = "S7".toList :=
  ⟨(c7_subsequence c7_nc ("S7".toList) (valid_data c7_nc ("S7".toList))
      (by decide)).1,
    (c7_subsequence c7_nc ("S7".toList) (valid_data c7_nc ("S7".toList))
      (by decide)).2.2 0 (by decide)⟩

/-- C8: on a source whose sid array decodes to
`["2012166N09269", "2012166N09269", "1999001N10200"]`, selecting with target
`"2012166N09269"` selects exactly positions 0 and 1, in original order. -/
theorem c8_positions :
    storm_ids c8_nc =
      ["2012166N09269".toList, "2012166N09269".toList, "1999001N10200".toList] ∧
      storm_indices c8_nc ("2012166N09269".toList) = [0, 1] := by
  decide

/-- C9: all three extraction variants are deterministic: two calls on equal
adapter contents and equal target identifiers yield identical Track values. -/
theorem c9_deterministic (r1 r2 : List TabRow) (g1 g2 : List GeoRow)
    (d1 d2 : NcData) (s1 s2 : String) (t1 t2 : List Char)
    (hr : r1 = r2) (hg : g1 = g2) (hd : d1 = d2) (hs : s1 = s2) (ht : t1 = t2) :
    ibtracs_storm r1 s1 = ibtracs_storm r2 s2 ∧
      storm_gdf g1 s1 = storm_gdf g2 s2 ∧
      nc_extraction d1 t1 = nc_extraction d2 t2 := by
  subst hr hg hd hs ht
  exact ⟨rfl, rfl, rfl⟩

/-- C9 (witness): determinism applied at concrete inputs for every variant. -/
theorem c9_deterministic_witness :
    ibtracs_storm c9_rows "PHOEBE" = ibtracs_storm c9_rows "PHOEBE" ∧
      storm_gdf c9_geo "PHOEBE" = storm_gdf c9_geo "PHOEBE" ∧
      nc_extraction c9_nc ("P".toList) = nc_extraction c9_nc ("P".toList) :=
  c9_deterministic c9_rows c9_rows c9_geo c9_geo c9_nc c9_nc "PHOEBE" "PHOEBE"
    ("P".toList) ("P".toList) rfl rfl rfl rfl rfl

/-- C10: every decoded identifier in the array variant's universe is trimmed
(a fixed point of `strip`), and a target that still carries whitespace padding
(so that stripping would change it) matches no storm in the universe. -/
theorem c10_trimmed_universe (d : NcData) (t : List Char) :
    (∀ s ∈ storm_ids d, strip s = s) ∧
      (strip t ≠ t → t ∉ storm_ids d) := by
  refine ⟨fun s hs => storm_ids_stripped hs, fun hst hmem => hst ?_⟩
  exact storm_ids_stripped hmem

/-- C10 (witness): the padded target `"AL01 "` is not in the decoded universe
of a source whose sole identifier decodes to `"AL01"`. -/
theorem c10_trimmed_universe_witness :
    ("AL01 ".toList) ∉ storm_ids c10_nc :=
  (c10_trimmed_universe c10_nc ("AL01 ".toList)).2 (by decide)
